import Mathlib

/-!
Shallow embedding of the streaming tile-acquisition pipeline of
`pipapr/runner.py` (WyssCenter/APR-pipelines): the Python-object attribute
model for `baseRunningPipeline`, the cursor advance, the two watcher variants,
the clearscope serpentine coordinate decoder, the acquisition-settings parse,
and the conversion integrity-check stub.
-/

/-- Values held in Python object attributes and in the parsed settings dict. -/
inductive PyVal where
  | vnone
  | vint (n : ℤ)
  | vfloat (q : ℚ)
  | vbool (b : Bool)
  | vstr (s : String)
  | vpair (a b : ℤ)
  deriving Repr, DecidableEq

/-- A Python object's attribute dictionary, most recent assignment first. -/
abbrev Obj := List (String × PyVal)

/-- Python attribute read: AttributeError when the attribute was never assigned. -/
def getattr (o : Obj) (name : String) : Except String PyVal :=
  match o.find? (fun p => p.1 == name) with
  | some p => .ok p.2
  | none => .error ("AttributeError: " ++ name)

/-- Python attribute write. -/
def setattr (o : Obj) (name : String) (v : PyVal) : Obj := (name, v) :: o

/-- The attributes assigned by `baseRunningPipeline.__init__`
(runner.py lines 43-68), in source order. -/
def base_init (path : String) (nrow ncol n_channels : ℤ) (ftype : String) : Obj :=
  let o : Obj := []
  let o := setattr o "path" (.vstr path)
  let o := setattr o "next_tile" (.vpair 0 0)
  let o := setattr o "frame_size" (.vint 2048)
  let o := setattr o "tile_processed" (.vint 0)
  let o := setattr o "nrow" (.vint nrow)
  let o := setattr o "ncol" (.vint ncol)
  let o := setattr o "n_tiles" (.vint (nrow * ncol))
  let o := setattr o "current_tile" .vnone
  let o := setattr o "type" (.vstr ftype)
  let o := setattr o "n_channels" (.vint n_channels)
  let o := setattr o "converter" .vnone
  let o := setattr o "lazy_loading" .vnone
  let o := setattr o "compression" (.vbool false)
  let o := setattr o "bg" .vnone
  let o := setattr o "quantization_factor" .vnone
  let o := setattr o "folder_apr" .vnone
  let o := setattr o "stitcher" .vnone
  let o := setattr o "overlap_h" .vnone
  let o := setattr o "overlap_v" .vnone
  let o := setattr o "n_vertex" .vnone
  let o := setattr o "folder_max_projs" .vnone
  o

/-- `baseRunningPipeline._update_next_tile` (runner.py lines 292-303). The source
evaluates `self.current_tile[1]` and then `self.n_col`; `__init__` assigns the
attribute `ncol`, never `n_col`. -/
def update_next_tile (o : Obj) : Except String Obj := do
  let cur ← getattr o "current_tile"
  match cur with
  | .vpair r c => do
      let nc ← getattr o "n_col"
      match nc with
      | .vint m =>
          if c = m - 1 then pure (setattr o "next_tile" (.vpair (r + 1) 0))
          else pure (setattr o "next_tile" (.vpair r (c + 1)))
      | _ => .error "TypeError: unsupported operand"
  | .vnone => .error "TypeError: NoneType object is not subscriptable"
  | _ => .error "TypeError: object is not subscriptable"

/-- Digit characters to the natural number they denote (Python `int(...)`). -/
def digitsToNat (ds : List Char) : ℕ :=
  ds.foldl (fun acc c => 10 * acc + (c.toNat - Char.toNat '0')) 0

/-- Split a character list into its leading digit run and the remainder. -/
def splitDigits (cs : List Char) : List Char × List Char :=
  (cs.takeWhile Char.isDigit, cs.dropWhile Char.isDigit)

/-- Modelled from the spec: the default-instrument coordinate decoder.
`_get_tile` (runner.py line 320) calls `self._get_row_col`, which is not defined
in `src/` for the default (sequential) instrument; spec section 4.2 states that
for the default variant row and col are the explicit filename tokens of
`{row}_{col}.ext`, with no inversion needed. -/
def get_row_col_default (name : String) : Option (ℤ × ℤ) :=
  match splitDigits name.toList with
  | ([], _) => none
  | (d1, '_' :: r2) =>
      match splitDigits r2 with
      | ([], _) => none
      | (d2, '.' :: _) => some ((digitsToNat d1 : ℤ), (digitsToNat d2 : ℤ))
      | (_, _) => none
  | (_, _) => none

/-- The descriptor fields of a `runningTile` that the watcher establishes
(runner.py lines 323-333). -/
structure TileD where
  path : String
  row : ℤ
  col : ℤ
  channel : Option ℤ
  deriving Repr, DecidableEq

/-- `baseRunningPipeline._get_tile` (runner.py lines 305-333), with the default
coordinate decoder modelled from the spec (see `get_row_col_default`); the
default `{row}_{col}.tif` pattern has no channel token. -/
def get_tile_default (path : String) : Except String TileD :=
  match get_row_col_default path with
  | some (r, c) => .ok { path := path, row := r, col := c, channel := none }
  | none => .error "Error: could not decode row and col from the file name"

/-- `baseRunningPipeline._is_new_tile_available` (runner.py lines 265-290).
`files` is the glob result for the pattern `{next_tile[0]}_{next_tile[1]}.tif`.
Zero matches report not-available; exactly one records `current_tile` from the
cursor and returns the decoded tile; otherwise the source raises TypeError. -/
def base_is_new_tile_available (o : Obj) (files : List String) :
    Except String (Obj × Bool × Option TileD) :=
  match files with
  | [] => .ok (o, false, none)
  | [p] =>
      match getattr o "next_tile" with
      | .ok (.vpair r c) =>
          match get_tile_default p with
          | .ok t => .ok (setattr o "current_tile" (.vpair r c), true, some t)
          | .error e => .error e
      | .ok _ => .error "TypeError: object is not subscriptable"
      | .error e => .error e
  | _ => .error "Error: glob returned one than one file."

/-- Result of driving `baseRunningPipeline.run` with bounded fuel. -/
inductive RunResult where
  | done (o : Obj)
  | raised (e : String)
  | timeout (o : Obj)
  deriving Repr, DecidableEq

/-- `baseRunningPipeline.run` (runner.py lines 70-101), fuel-indexed. `fs t` is
the glob result for the cursor pattern at poll number `t`. In the default
configuration (`converter` None, `stitcher` None) the conversion and
pre-stitching branches are skipped, as in the source; processing a tile calls
`_update_next_tile` and then increments `tile_processed`. -/
def run_fuel (fs : ℕ → List String) : ℕ → ℕ → Obj → RunResult
  | 0, _, o => .timeout o
  | fuel + 1, t, o =>
      match getattr o "tile_processed", getattr o "n_tiles" with
      | .ok (.vint p), .ok (.vint n) =>
          if p < n then
            match base_is_new_tile_available o (fs t) with
            | .error e => .raised e
            | .ok (o2, avail, _tile) =>
                if avail then
                  match update_next_tile o2 with
                  | .error e => .raised e
                  | .ok o3 =>
                      run_fuel fs fuel (t + 1)
                        (setattr o3 "tile_processed" (.vint (p + 1)))
                else
                  run_fuel fs fuel (t + 1) o2
          else .done o
      | _, _ => .raised "AttributeError"

/-- Exact-count digit run: regex `\d{k}` at the head of the character list. -/
def takeExactDigits : ℕ → List Char → Option (List Char × List Char)
  | 0, rest => some ([], rest)
  | _ + 1, [] => none
  | k + 1, c :: rest =>
      if c.isDigit then
        match takeExactDigits k rest with
        | some (ds, r) => some (c :: ds, r)
        | none => none
      else none

/-- Consume one expected literal character. -/
def expectChar (c : Char) : List Char → Option (List Char)
  | [] => none
  | x :: rest => if x = c then some rest else none

/-- Match the clearscope tile-name regex at the head of `cs`, returning the
six-digit acquisition-index capture and the channel digit. `_get_row_col`
captures the index (`\d{6}_(\d{6})___\dc`, runner.py line 476) and
`_get_channel` the channel digit (`\d{6}_\d{6}___(\d)c`, line 491); the two
patterns have the same shape, so one matcher returns both captures. -/
def matchClearscopeAt (cs : List Char) : Option (List Char × Char) := do
  let (_, r1) ← takeExactDigits 6 cs
  let r2 ← expectChar '_' r1
  let (idx, r3) ← takeExactDigits 6 r2
  let r4 ← expectChar '_' r3
  let r5 ← expectChar '_' r4
  let r6 ← expectChar '_' r5
  match r6 with
  | d :: r7 =>
      if d.isDigit then (expectChar 'c' r7).map (fun _ => (idx, d)) else none
  | [] => none

/-- `re.findall(...)` followed by taking element 0: the leftmost match of the
clearscope pattern. -/
def findClearscope : List Char → Option (List Char × Char)
  | [] => none
  | c :: rest =>
      match matchClearscopeAt (c :: rest) with
      | some m => some m
      | none => findClearscope rest

/-- Python `int()` applied to a float value: truncation toward zero. -/
def pyTrunc (q : ℚ) : ℤ := if 0 ≤ q then ⌊q⌋ else ⌈q⌉

/-- The serpentine inversion of runner.py lines 481-485 on the decoded index `n`:
`col = int(|np.mod(n - ncol - 1, 2*ncol) - ncol + 0.5| + 0.5 - 1)` and
`row = int(np.ceil(n / ncol) - 1)`. The float arithmetic of the source is exact
on the values involved, so it is modelled over ℚ; `np.mod` with a positive
modulus agrees with `Int.emod`. -/
def clearscope_decode (ncol n : ℤ) : ℤ × ℤ :=
  let m : ℤ := (n - ncol - 1) % (2 * ncol)
  let colf : ℚ := |(m : ℚ) - (ncol : ℚ) + 1 / 2| + 1 / 2
  let rowf : ℚ := ((⌈(n : ℚ) / (ncol : ℚ)⌉ : ℤ) : ℚ)
  (pyTrunc (rowf - 1), pyTrunc (colf - 1))

/-- `clearscopeRunningPipeline._get_row_col` (runner.py lines 459-487). When the
pattern does not match, the source still evaluates the `col` formula on the
never-assigned local `n`, which raises UnboundLocalError. -/
def cs_get_row_col (ncol : ℤ) (path : String) : Except String (ℤ × ℤ) :=
  match findClearscope path.toList with
  | some (idx, _) => .ok (clearscope_decode ncol (digitsToNat idx : ℤ))
  | none => .error "UnboundLocalError: local variable n referenced before assignment"

/-- `clearscopeRunningPipeline._get_channel` (runner.py lines 489-494): the
channel digit on a match, and (implicitly) None otherwise. -/
def cs_get_channel (path : String) : Option ℤ :=
  (findClearscope path.toList).map
    (fun m => ((m.2.toNat - Char.toNat '0' : ℕ) : ℤ))

/-- `clearscopeRunningPipeline._is_new_tile_available` (runner.py lines 435-457).
`paths` is this poll's glob result for `000000_*_*c/`. The first component is
the buffer after `self.buffer_tile_to_be_processed.extend(paths)`; the second is
the returned value — `some (b, d)` for a `return b, d`, and `none` for the
implicit `return None` reached when the buffer is non-empty but this poll's glob
came back empty. The returned descriptor is built from `paths[0]`. -/
def cs_is_new_tile_available (buffer paths : List String) :
    List String × Option (Bool × Option String) :=
  let buffer2 := buffer ++ paths
  if buffer2 = [] then (buffer2, some (false, none))
  else
    match paths with
    | p :: _ => (buffer2, some (true, some p))
    | [] => (buffer2, none)

/-- `runningTile._erase_from_disk` (runner.py lines 701-711): removes the tile's
path when the tile type is `tiff3D`. The disk is modelled as a list of paths. -/
def erase_from_disk (ftype path : String) (disk : List String) : List String :=
  if ftype = "tiff3D" then disk.erase path else disk

/-- `baseRunningPipeline._check_conversion` (runner.py lines 210-229): the
integrity check is the source's stub `conversion_ok = False`, and
`tile._erase_from_disk()` is called only under that flag. -/
def check_conversion (ftype path : String) (disk : List String) : List String :=
  let conversion_ok := false
  if conversion_ok then erase_from_disk ftype path disk else disk

/-- Python `\w` word characters (ASCII range). -/
def isWordChar (c : Char) : Bool := c.isAlphanum || c = '_'

/-- `re.match` of `^(\w*) = (.*)$` on a settings line (without its trailing
newline): the greedy word prefix must be followed by the literal " = "; the rest
of the line is group 2. -/
def matchSettingLine (l : List Char) : Option (List Char × List Char) :=
  let w := l.takeWhile isWordChar
  match l.drop w.length with
  | ' ' :: '=' :: ' ' :: v => some (w, v)
  | _ => none

/-- Python `str.isnumeric` on ASCII content. -/
def pyIsNumeric (s : List Char) : Bool := !s.isEmpty && s.all Char.isDigit

/-- Value typing of runner.py lines 421-428: numeric strings parse to float,
`True`/`False` to bool, anything else stays a string. -/
def interpSettingValue (v : List Char) : PyVal :=
  if pyIsNumeric v then .vfloat ((digitsToNat v : ℤ) : ℚ)
  else if String.mk v = "True" then .vbool true
  else if String.mk v = "False" then .vbool false
  else .vstr (String.mk v)

/-- The `self.acq_param` dict built by the parse loop (runner.py lines 417-428);
later assignments to a key shadow earlier ones. -/
def buildAcqParam (lines : List String) : List (String × PyVal) :=
  lines.foldl
    (fun d l =>
      match matchSettingLine l.toList with
      | some (w, v) => (String.mk w, interpSettingValue v) :: d
      | none => d) []

/-- Python dict lookup: KeyError when the key is absent. -/
def dictGet (d : List (String × PyVal)) (k : String) : Except String PyVal :=
  match d.find? (fun p => p.1 == k) with
  | some p => .ok p.2
  | none => .error ("KeyError: " ++ k)

/-- The value-extraction tail of
`clearscopeRunningPipeline._parse_acquisition_settings` (runner.py lines
417-433): build `acq_param` from the settings lines, then
`nrow = acq_param['ScanGridY']; ncol = acq_param['ScanGridY'];
n_planes = acq_param['StackDepths']; return nrow, ncol`. -/
def parse_acquisition_settings_values (lines : List String) :
    Except String (PyVal × PyVal) :=
  let param := buildAcqParam lines
  match dictGet param "ScanGridY" with
  | .error e => .error e
  | .ok nrow =>
      match dictGet param "ScanGridY" with
      | .error e => .error e
      | .ok ncol =>
          match dictGet param "StackDepths" with
          | .error e => .error e
          | .ok _n_planes => .ok (nrow, ncol)

/-- `os.path.join` for the (non-degenerate) paths used here. -/
def pyJoin (a b : String) : String := a ++ "/" ++ b

/-- The retry loop of runner.py lines 406-408: while no file was found, glob
again — with the pattern rooted at `os.path.join(self.path, '0001')`. `fs t pat`
is the glob result for pattern `pat` at time `t`; structural fuel bounds the
unbounded while loop. -/
def settings_wait_loop (fs : ℕ → String → List String) (pat : String) :
    ℕ → ℕ → Option String
  | 0, _ => none
  | fuel + 1, t =>
      match fs t pat with
      | [] => settings_wait_loop fs pat fuel (t + 1)
      | f :: _ => some f

/-- The file-search phase of
`clearscopeRunningPipeline._parse_acquisition_settings` (runner.py lines
400-411), with `self.path = os.path.join(path, '0001')` set by `__init__` (line
341): the first glob runs under `{path}/0001`, and every retry under
`{path}/0001/0001`. Returns the found settings file, or none if the fuel runs
out before one is seen. -/
def settings_file_search (fs : ℕ → String → List String) (path : String)
    (fuel : ℕ) : Option String :=
  let selfPath := pyJoin path "0001"
  match fs 0 (pyJoin selfPath "*_AcquireSettings.txt") with
  | f :: _ => some f
  | [] =>
      settings_wait_loop fs (pyJoin (pyJoin selfPath "0001") "*_AcquireSettings.txt")
        fuel 1

/-- Integer restatement of the serpentine inversion: row `q` counts full rows of
`ncol` below `n`, and the column runs forward on even rows and backward on odd
rows. Used as the bridge between the float formula and the bijection proof. -/
def clearscope_decode_int (ncol n : ℤ) : ℤ × ℤ :=
  let q := (n - 1) / ncol
  let s := (n - 1) % ncol
  (q, if q % 2 = 0 then s else ncol - 1 - s)

/-- Python truncation of an exact integer value is that integer. -/
theorem pyTrunc_intCast (z : ℤ) : pyTrunc (z : ℚ) = z := by
  unfold pyTrunc
  split
  · exact Int.floor_intCast z
  · exact Int.ceil_intCast z

/-- The row term: `ceil(n/ncol)` counts the 1-based row of a 1-based index. -/
theorem ceil_div_eq (ncol n : ℤ) (hc : 1 ≤ ncol) (hn : 1 ≤ n) :
    ⌈(n : ℚ) / (ncol : ℚ)⌉ = (n - 1) / ncol + 1 := by
  have hd : ncol * ((n - 1) / ncol) + (n - 1) % ncol = n - 1 := Int.ediv_add_emod _ _
  have hs0 : 0 ≤ (n - 1) % ncol := Int.emod_nonneg _ (by omega)
  have hs1 : (n - 1) % ncol < ncol := Int.emod_lt_of_pos _ (by omega)
  have hcq : (0 : ℚ) < (ncol : ℚ) := by exact_mod_cast (by omega : (0:ℤ) < ncol)
  rw [Int.ceil_eq_iff]
  constructor
  · rw [show ((((n - 1) / ncol + 1 : ℤ)) : ℚ) - 1 = (((n - 1) / ncol : ℤ) : ℚ) by
        push_cast; ring]
    rw [lt_div_iff₀ hcq,
        show (((n - 1) / ncol : ℤ) : ℚ) * (ncol : ℚ) = ((ncol * ((n - 1) / ncol) : ℤ) : ℚ) by
          push_cast; ring]
    exact_mod_cast (by linarith : ncol * ((n - 1) / ncol) < n)
  · rw [div_le_iff₀ hcq,
        show ((((n - 1) / ncol + 1 : ℤ)) : ℚ) * (ncol : ℚ)
            = ((ncol * ((n - 1) / ncol) + ncol : ℤ) : ℚ) by push_cast; ring]
    exact_mod_cast (by linarith : n ≤ ncol * ((n - 1) / ncol) + ncol)

/-- The modulus term of the col formula, by row parity. -/
theorem serpentine_emod_eq (ncol n : ℤ) (hc : 1 ≤ ncol) (hn : 1 ≤ n) :
    (n - ncol - 1) % (2 * ncol) =
      if ((n - 1) / ncol) % 2 = 0 then ncol + (n - 1) % ncol else (n - 1) % ncol := by
  have hd : ncol * ((n - 1) / ncol) + (n - 1) % ncol = n - 1 := Int.ediv_add_emod _ _
  have hs0 : 0 ≤ (n - 1) % ncol := Int.emod_nonneg _ (by omega)
  have hs1 : (n - 1) % ncol < ncol := Int.emod_lt_of_pos _ (by omega)
  have hq2 : 2 * (((n - 1) / ncol) / 2) + ((n - 1) / ncol) % 2 = (n - 1) / ncol :=
    Int.ediv_add_emod _ _
  rcases Int.emod_two_eq ((n - 1) / ncol) with hq | hq
  · rw [if_pos hq]
    rw [hq] at hq2
    have hrw : n - ncol - 1 =
        (ncol + (n - 1) % ncol) + (2 * ncol) * ((((n - 1) / ncol) / 2) - 1) := by nlinarith
    rw [hrw, Int.add_mul_emod_self_left, Int.emod_eq_of_lt (by omega) (by omega)]
  · rw [if_neg (by omega)]
    rw [hq] at hq2
    have hrw : n - ncol - 1 = ((n - 1) % ncol) + (2 * ncol) * (((n - 1) / ncol) / 2) := by
      nlinarith
    rw [hrw, Int.add_mul_emod_self_left, Int.emod_eq_of_lt (by omega) (by omega)]

/-- The absolute-value fold of the col formula, on exact rationals. -/
theorem col_fold_eq (ncol m : ℤ) (h2 : m < 2 * ncol) :
    pyTrunc (|(m : ℚ) - (ncol : ℚ) + 1 / 2| + 1 / 2 - 1) =
      if ncol ≤ m then m - ncol else ncol - 1 - m := by
  rcases le_or_lt ncol m with hge | hlt
  · rw [if_pos hge]
    have hq : (ncol : ℚ) ≤ (m : ℚ) := by exact_mod_cast hge
    have habs : |(m : ℚ) - (ncol : ℚ) + 1 / 2| + 1 / 2 - 1 = ((m - ncol : ℤ) : ℚ) := by
      rw [abs_of_nonneg (by linarith)]
      push_cast
      ring
    rw [habs, pyTrunc_intCast]
  · rw [if_neg (by omega)]
    have hq : (m : ℚ) + 1 ≤ (ncol : ℚ) := by exact_mod_cast (by omega : m + 1 ≤ ncol)
    have habs : |(m : ℚ) - (ncol : ℚ) + 1 / 2| + 1 / 2 - 1 = ((ncol - 1 - m : ℤ) : ℚ) := by
      rw [abs_of_neg (by linarith)]
      push_cast
      ring
    rw [habs, pyTrunc_intCast]

/-- The float serpentine formula agrees with its integer restatement on the
whole 1-based index range. -/
theorem clearscope_decode_eq_int (ncol n : ℤ) (hc : 1 ≤ ncol) (hn : 1 ≤ n) :
    clearscope_decode ncol n = clearscope_decode_int ncol n := by
  have hs0 : 0 ≤ (n - 1) % ncol := Int.emod_nonneg _ (by omega)
  have hs1 : (n - 1) % ncol < ncol := Int.emod_lt_of_pos _ (by omega)
  show (pyTrunc ((((⌈(n : ℚ) / (ncol : ℚ)⌉ : ℤ)) : ℚ) - 1),
        pyTrunc (|((((n - ncol - 1) % (2 * ncol) : ℤ)) : ℚ) - (ncol : ℚ) + 1 / 2| + 1 / 2 - 1))
      = ((n - 1) / ncol,
         if ((n - 1) / ncol) % 2 = 0 then (n - 1) % ncol else ncol - 1 - (n - 1) % ncol)
  rw [Prod.mk.injEq]
  constructor
  · rw [ceil_div_eq ncol n hc hn,
        show ((((n - 1) / ncol + 1 : ℤ)) : ℚ) - 1 = (((n - 1) / ncol : ℤ) : ℚ) by
          push_cast; ring,
        pyTrunc_intCast]
  · rw [serpentine_emod_eq ncol n hc hn]
    rcases Int.emod_two_eq ((n - 1) / ncol) with hq | hq
    · rw [if_pos hq, if_pos hq, col_fold_eq ncol _ (by omega), if_pos (by omega)]
      omega
    · rw [if_neg (by omega), if_neg (by omega), col_fold_eq ncol _ (by omega),
          if_neg (by omega)]

/-- The integer restatement is a bijection from indices onto grid cells. -/
theorem clearscope_decode_int_bijOn (nrow ncol : ℤ) (hr : 1 ≤ nrow) (hc : 1 ≤ ncol) :
    Set.BijOn (clearscope_decode_int ncol) (Set.Icc 1 (nrow * ncol))
      (Set.Ico 0 nrow ×ˢ Set.Ico 0 ncol) := by
  have hdecomp : ∀ n : ℤ, ncol * ((n - 1) / ncol) + (n - 1) % ncol = n - 1 :=
    fun n => Int.ediv_add_emod _ _
  have hs0 : ∀ n : ℤ, 0 ≤ (n - 1) % ncol := fun n => Int.emod_nonneg _ (by omega)
  have hs1 : ∀ n : ℤ, (n - 1) % ncol < ncol := fun n => Int.emod_lt_of_pos _ (by omega)
  refine ⟨?_, ?_, ?_⟩
  · intro n hn
    obtain ⟨hn1, hn2⟩ := Set.mem_Icc.mp hn
    have h0 := hs0 n
    have h1 := hs1 n
    have hq0 : 0 ≤ (n - 1) / ncol := Int.ediv_nonneg (by omega) (by omega)
    have hq1 : (n - 1) / ncol < nrow := by
      rw [Int.ediv_lt_iff_lt_mul (by omega)]
      omega
    simp only [clearscope_decode_int, Set.mem_prod, Set.mem_Ico]
    refine ⟨⟨hq0, hq1⟩, ?_, ?_⟩ <;> (split <;> omega)
  · intro a ha b hb heq
    obtain ⟨ha1, _⟩ := Set.mem_Icc.mp ha
    obtain ⟨hb1, _⟩ := Set.mem_Icc.mp hb
    unfold clearscope_decode_int at heq
    rw [Prod.mk.injEq] at heq
    obtain ⟨hq, hcol⟩ := heq
    have hda := hdecomp a
    have hdb := hdecomp b
    have hsa0 := hs0 a
    have hsb0 := hs0 b
    have hsa1 := hs1 a
    have hsb1 := hs1 b
    rw [hq] at hda hcol
    split_ifs at hcol <;> linarith
  · intro p hp
    obtain ⟨hpr, hpc⟩ := Set.mem_prod.mp hp
    rw [Set.mem_Ico] at hpr hpc
    refine ⟨ncol * p.1 + (if p.1 % 2 = 0 then p.2 else ncol - 1 - p.2) + 1,
            Set.mem_Icc.mpr ⟨?_, ?_⟩, ?_⟩
    · have h1 : 0 ≤ ncol * p.1 := mul_nonneg (by omega) hpr.1
      split <;> linarith [hpc.1, hpc.2]
    · have h1 : ncol * p.1 ≤ ncol * (nrow - 1) :=
        mul_le_mul_of_nonneg_left (by omega) (by omega)
      have h2 : ncol * (nrow - 1) = nrow * ncol - ncol := by ring
      split <;> linarith [hpc.1, hpc.2]
    · have hoff0 : 0 ≤ (if p.1 % 2 = 0 then p.2 else ncol - 1 - p.2) := by split <;> omega
      have hoff1 : (if p.1 % 2 = 0 then p.2 else ncol - 1 - p.2) < ncol := by split <;> omega
      have hq : (ncol * p.1 + (if p.1 % 2 = 0 then p.2 else ncol - 1 - p.2) + 1 - 1) / ncol
          = p.1 := by
        rw [show ncol * p.1 + (if p.1 % 2 = 0 then p.2 else ncol - 1 - p.2) + 1 - 1
            = (if p.1 % 2 = 0 then p.2 else ncol - 1 - p.2) + ncol * p.1 by ring,
          Int.add_mul_ediv_left _ _ (by omega : ncol ≠ 0),
          Int.ediv_eq_zero_of_lt hoff0 hoff1]
        ring
      have hs : (ncol * p.1 + (if p.1 % 2 = 0 then p.2 else ncol - 1 - p.2) + 1 - 1) % ncol
          = (if p.1 % 2 = 0 then p.2 else ncol - 1 - p.2) := by
        rw [show ncol * p.1 + (if p.1 % 2 = 0 then p.2 else ncol - 1 - p.2) + 1 - 1
            = (if p.1 % 2 = 0 then p.2 else ncol - 1 - p.2) + ncol * p.1 by ring,
          Int.add_mul_emod_self_left, Int.emod_eq_of_lt hoff0 hoff1]
      simp only [clearscope_decode_int]
      rw [hq, hs]
      rcases Int.emod_two_eq p.1 with hpar | hpar
      · simp only [if_pos hpar]
      · simp only [if_neg (show ¬p.1 % 2 = 0 by omega)]
        rw [show ncol - 1 - (ncol - 1 - p.2) = p.2 by omega]

/-- Claim C7: for the default watcher with a well-formed cursor and decodable
tile names, `_is_new_tile_available` reports not-available on zero glob
matches, records the cursor and returns the decoded descriptor on exactly one
match, and raises the fatal ambiguous-glob error exactly when two or more
files match. -/
theorem base_poll_cases (o : Obj) (l : List String) (r c : ℤ)
    (hnt : getattr o "next_tile" = .ok (.vpair r c))
    (hdec : ∀ p, l = [p] → ∃ t, get_tile_default p = .ok t) :
    (l = [] → base_is_new_tile_available o l = .ok (o, false, none)) ∧
    (∀ p t, l = [p] → get_tile_default p = .ok t →
        base_is_new_tile_available o l
          = .ok (setattr o "current_tile" (.vpair r c), true, some t)) ∧
    (base_is_new_tile_available o l = .error "Error: glob returned one than one file."
      ↔ 2 ≤ l.length) := by
  refine ⟨?_, ?_, ?_⟩
  · rintro rfl
    rfl
  · rintro p t rfl hgt
    simp only [base_is_new_tile_available, hnt, hgt]
  · cases l with
    | nil => simp [base_is_new_tile_available]
    | cons a as =>
      cases as with
      | nil =>
          obtain ⟨t, ht⟩ := hdec a rfl
          refine iff_of_false (fun h => ?_) (by simp)
          simp only [base_is_new_tile_available, hnt, ht] at h
          exact Except.noConfusion h
      | cons b bs => exact iff_of_true rfl (by simp only [List.length_cons]; omega)

/-- Witness for claim C7's theorem: the freshly initialised pipeline with a
single matching file returns available with the decoded (0,0) tile. -/
theorem base_poll_cases_witness :
    base_is_new_tile_available (base_init "acq" 2 3 1 "tiff3D") ["0_0.tif"]
      = .ok (setattr (base_init "acq" 2 3 1 "tiff3D") "current_tile" (.vpair 0 0), true,
             some { path := "0_0.tif", row := 0, col := 0, channel := none }) :=
  (base_poll_cases (base_init "acq" 2 3 1 "tiff3D") ["0_0.tif"] 0 0 rfl
      (fun p hp => by
        injection hp with h1 h2
        subst h1
        exact ⟨{ path := "0_0.tif", row := 0, col := 0, channel := none }, rfl⟩)).2.1
    "0_0.tif" { path := "0_0.tif", row := 0, col := 0, channel := none } rfl rfl

/-- Claim C1: for every grid with `1 <= nrow` and `1 <= ncol` (even or odd), the
clearscope serpentine inversion computed by `_get_row_col` (embedded as
`clearscope_decode`) maps the acquisition-index range `[1, nrow*ncol]`
bijectively onto the cell grid `[0,nrow) x [0,ncol)`: no two indices share a
cell and every cell is hit exactly once. -/
theorem clearscope_decoder_bijection (nrow ncol : ℤ) (hr : 1 ≤ nrow) (hc : 1 ≤ ncol) :
    Set.BijOn (clearscope_decode ncol) (Set.Icc 1 (nrow * ncol))
      (Set.Ico 0 nrow ×ˢ Set.Ico 0 ncol) :=
  (clearscope_decode_int_bijOn nrow ncol hr hc).congr
    (fun n hn => (clearscope_decode_eq_int ncol n hc (Set.mem_Icc.mp hn).1).symm)

/-- Witness for claim C1's theorem on the concrete 3 x 2 grid. -/
theorem clearscope_decoder_bijection_witness :
    (1 ≤ (3:ℤ)) ∧ (1 ≤ (2:ℤ)) ∧
      Set.BijOn (clearscope_decode 2) (Set.Icc 1 (3 * 2)) (Set.Ico 0 3 ×ˢ Set.Ico 0 2) :=
  ⟨by norm_num, by norm_num, clearscope_decoder_bijection 3 2 (by norm_num) (by norm_num)⟩

/-- Claim C2 (refuted by the code): the cursor advance `_update_next_tile`
never succeeds — for every state produced by `baseRunningPipeline.__init__`,
with any current tile set, it raises AttributeError, because the source reads
`self.n_col` while `__init__` only ever assigns `self.ncol`; the claimed
`(row, col+1)` / `(row+1, 0)` advance is unreachable. -/
theorem update_next_tile_raises (path ftype : String)
    (nrow ncol n_channels r c : ℤ) :
    update_next_tile
        (setattr (base_init path nrow ncol n_channels ftype) "current_tile" (.vpair r c))
      = .error "AttributeError: n_col" := rfl

/-- Claim C3 (refuted by the code): the clearscope poll with a non-empty
unprocessed buffer does not return the buffer's head. With leftover buffer
`["B"]` and this poll's glob result `["A", "B"]` it returns a descriptor built
from `"A"` (`paths[0]`), while the head `"B"` is what `run` will pop; and when
this poll's glob comes back empty it falls off the end of the function and
returns a bare None rather than an (available, descriptor) pair. -/
theorem cs_poll_returns_glob_head_not_buffer_head :
    cs_is_new_tile_available ["B"] [] = (["B"], none) ∧
    cs_is_new_tile_available ["B"] ["A", "B"] = (["B", "A", "B"], some (true, some "A")) :=
  ⟨rfl, rfl⟩

/-- Claim C4 (refuted by the code): the clearscope poll does not deduplicate —
`extend(paths)` appends every glob result, so a directory already enqueued is
enqueued again by the next poll: after two polls that both see `"A"`, the
buffer holds `"A"` twice. -/
theorem cs_buffer_gets_duplicates :
    (cs_is_new_tile_available [] ["A"]).1 = ["A"] ∧
    (cs_is_new_tile_available (cs_is_new_tile_available [] ["A"]).1 ["A"]).1 = ["A", "A"] ∧
    ¬ (cs_is_new_tile_available (cs_is_new_tile_available [] ["A"]).1 ["A"]).1.Nodup := by
  refine ⟨rfl, rfl, ?_⟩
  decide

/-- Claim C5 (refuted by the code): the run loop cannot reach
`tile_processed == nrow*ncol`. On a 1 x 1 grid with the expected tile present
at every poll, processing the first available tile raises AttributeError
inside `_update_next_tile` (the `n_col` slip), so `run` aborts instead of
terminating with the processed count equal to the tile count. -/
theorem run_loop_raises_on_first_tile :
    run_fuel (fun _ => ["0_0.tif"]) 3 0 (base_init "acq" 1 1 1 "tiff3D")
      = .raised "AttributeError: n_col" := rfl

/-- Claim C6: `_check_conversion` never erases the raw data: the integrity
check is the source's stub `conversion_ok = False`, so `_erase_from_disk` is
never invoked and the disk is unchanged for every tile type, path and disk
state. -/
theorem check_conversion_never_erases (ftype path : String) (disk : List String) :
    check_conversion ftype path disk = disk := rfl

/-- Claim C8 (refuted by the code): on a directory name that matches the glob
pattern but not the regex (index of fewer than six digits), `_get_row_col`
raises UnboundLocalError — the col formula runs on the never-assigned local
`n` — instead of the claimed silent skip; `_get_channel` does return None
silently. -/
theorem cs_get_row_col_raises_on_nonmatch :
    cs_get_row_col 2 "000000_12_3c/"
        = .error "UnboundLocalError: local variable n referenced before assignment" ∧
    cs_get_channel "000000_12_3c/" = none :=
  ⟨rfl, rfl⟩

/-- Claim C9: whenever the acquisition-settings parse succeeds it returns
`nrow = ncol`, both read from the single key `ScanGridY` (typed as a float by
the numeric rule); a declared `ScanGridX` is never consulted, so a rectangular
grid is treated as the `ScanGridY`-square. -/
theorem parse_settings_square (lines : List String) (p : PyVal × PyVal)
    (h : parse_acquisition_settings_values lines = .ok p) :
    p.1 = p.2 ∧ dictGet (buildAcqParam lines) "ScanGridY" = .ok p.1 := by
  simp only [parse_acquisition_settings_values] at h
  cases hy : dictGet (buildAcqParam lines) "ScanGridY" with
  | error e =>
      rw [hy] at h
      simp at h
  | ok v =>
      rw [hy] at h
      cases hd : dictGet (buildAcqParam lines) "StackDepths" with
      | error e =>
          rw [hd] at h
          simp at h
      | ok w =>
          rw [hd] at h
          simp at h
          subst h
          exact ⟨rfl, rfl⟩

/-- Witness for claim C9's theorem on settings lines whose `ScanGridX` and
`ScanGridY` differ. -/
theorem parse_settings_square_witness :
    (PyVal.vfloat 3, PyVal.vfloat 3).1 = (PyVal.vfloat 3, PyVal.vfloat 3).2 ∧
    dictGet (buildAcqParam ["ScanGridX = 5", "ScanGridY = 3", "StackDepths = 7"]) "ScanGridY"
      = .ok (PyVal.vfloat 3, PyVal.vfloat 3).1 :=
  parse_settings_square ["ScanGridX = 5", "ScanGridY = 3", "StackDepths = 7"]
    (PyVal.vfloat 3, PyVal.vfloat 3) rfl

/-- Helper: a retry loop polling a pattern whose glob is always empty never
returns a file, for any fuel and start time. -/
theorem settings_wait_loop_never_finds (fs : ℕ → String → List String) (pat : String)
    (h : ∀ t, fs t pat = []) :
    ∀ fuel t, settings_wait_loop fs pat fuel t = none := by
  intro fuel
  induction fuel with
  | zero => intro t; rfl
  | succ k ih =>
      intro t
      unfold settings_wait_loop
      rw [h t]
      exact ih (t + 1)

/-- Claim C10: if no settings file matches at the first scan of
`{path}/0001`, every retry scans `{path}/0001/0001` instead; hence whenever
the retry directory never has a match — in particular when the file exists
(or later appears) only at `{path}/0001` — the startup search never completes,
for any amount of fuel. -/
theorem settings_retry_scans_wrong_dir (fs : ℕ → String → List String) (root : String)
    (h0 : fs 0 (pyJoin (pyJoin root "0001") "*_AcquireSettings.txt") = [])
    (hB : ∀ t,
      fs t (pyJoin (pyJoin (pyJoin root "0001") "0001") "*_AcquireSettings.txt") = []) :
    ∀ fuel, settings_file_search fs root fuel = none := by
  intro fuel
  simp only [settings_file_search]
  rw [h0]
  exact settings_wait_loop_never_finds fs _ hB fuel 1

/-- Witness for claim C10's theorem: the settings file appears under
`acq/0001` from the second scan on, yet the search returns nothing. -/
theorem settings_retry_scans_wrong_dir_witness :
    settings_file_search
      (fun t p =>
        if 1 ≤ t ∧ p = "acq/0001/*_AcquireSettings.txt"
        then ["acq/0001/2021_AcquireSettings.txt"] else []) "acq" 9 = none :=
  settings_retry_scans_wrong_dir _ "acq" (by decide)
    (fun t => if_neg (fun h => absurd h.2 (by decide))) 9
